import Mathlib

/-!
Verification of the dual-backend execution facade of the podman repository.

Go code is shallowly embedded: a Go function returning `(T, error)` becomes a
Lean function returning `Option T × Option GoError` (Go's multiple-return with
possibly-nil results), `*T` pointers that may be nil become `Option T`, and the
outcomes of external collaborator calls (runtime acquisition, storage
acquisition, connection negotiation, transport requests) are supplied through a
"world" record so that the control flow of the embedded function is exactly the
control flow of the source.  Where the embedded function's observable behaviour
includes *which* collaborator calls it makes (and in what order), the function
additionally returns a trace of call events.
-/

/-- A Go `error` value: an opaque value carrying its message string
(`errors.New` / `fmt.Errorf`). -/
structure GoError where
  msg : String
deriving DecidableEq, Repr

/-- A machine-provisioned connection artifact (`define.VMFile`): carries the
path of a unix socket or of a named pipe. -/
structure VMFile where
  Path : String
deriving DecidableEq, Repr

/-- Go stdlib `filepath.ToSlash` on the Windows platform family: replaces every
separator character (backslash on Windows) with a forward slash. -/
def toSlash (s : String) : String :=
  ⟨s.data.map (fun c => if c = '\\' then '/' else c)⟩

/-- `extractConnectionString` from `cmd/podman/compose_machine_windows.go`
(pipe platform family): ignores the socket artifact; a nil pipe artifact is an
error, otherwise the address is `npipe://` plus the slash-normalized pipe
path. -/
def extractConnectionStringWindows (_podmanSocket : Option VMFile)
    (podmanPipe : Option VMFile) : String × Option GoError :=
  match podmanPipe with
  | none => ("", some ⟨"pipe of machine is not set"⟩)
  | some pipe => ("npipe://" ++ toSlash pipe.Path, none)

/-- `extractConnectionString` from `src/unnamed/part_006` (socket platform
family, build tag `!windows`): ignores the pipe artifact; a nil socket artifact
is an error, otherwise the address is `unix://` plus the socket path. -/
def extractConnectionStringUnix (podmanSocket : Option VMFile)
    (_podmanPipe : Option VMFile) : String × Option GoError :=
  match podmanSocket with
  | none => ("", some ⟨"socket of machine is not set"⟩)
  | some socket => ("unix://" ++ socket.Path, none)

/-- An observable call issued over the remote transport (the `DoRequest`
primitive of the bindings connection), recorded in traces so that "performs no
transport call" is a statement about the trace. -/
structure TransportCall where
  method : String
  path : String
deriving DecidableEq, Repr

/-- Modelled from the spec: the remote client context negotiated by
`bindings.NewConnectionWithOptions` (the type is defined outside the provided
sources; only its identity matters here). -/
structure ClientCtx where
  id : Nat
deriving DecidableEq, Repr

/-- Modelled from the spec: trust-show options (`entities.ShowTrustOptions`,
defined outside the provided sources; the tunnel backend ignores them). -/
structure ShowTrustOptions where
deriving DecidableEq, Repr

/-- Modelled from the spec: trust-set options (`entities.SetTrustOptions`,
defined outside the provided sources; the tunnel backend ignores them). -/
structure SetTrustOptions where
deriving DecidableEq, Repr

/-- Modelled from the spec: auto-update options (`entities.AutoUpdateOptions`,
defined outside the provided sources; the tunnel backend ignores them). -/
structure AutoUpdateOptions where
deriving DecidableEq, Repr

/-- Modelled from the spec: a trust-show report (`entities.ShowTrustReport`,
defined outside the provided sources; the tunnel backend never builds one). -/
structure ShowTrustReport where
  raw : String
deriving DecidableEq, Repr

/-- Modelled from the spec: a per-unit auto-update report
(`entities.AutoUpdateReport`, defined outside the provided sources; the tunnel
backend never builds one). -/
structure AutoUpdateReport where
  unit : String
deriving DecidableEq, Repr

/-- The tunnel `ImageEngine` (remote backend): holds the negotiated client
context. -/
structure TunnelImageEngine where
  ClientCtx : ClientCtx
deriving DecidableEq, Repr

/-- The tunnel `ContainerEngine` (remote backend): holds the negotiated client
context. -/
structure TunnelContainerEngine where
  ClientCtx : ClientCtx
deriving DecidableEq, Repr

/-- `(*ImageEngine).ShowTrust` from `pkg/domain/infra/tunnel/trust.go`: returns
a nil report and the error `"not implemented"`, issuing no transport call. -/
def tunnelShowTrust (_ir : TunnelImageEngine) (_args : List String)
    (_options : ShowTrustOptions) :
    (Option ShowTrustReport × Option GoError) × List TransportCall :=
  ((none, some ⟨"not implemented"⟩), [])

/-- `(*ImageEngine).SetTrust` from `pkg/domain/infra/tunnel/trust.go`: returns
the error `"not implemented"`, issuing no transport call. -/
def tunnelSetTrust (_ir : TunnelImageEngine) (_args : List String)
    (_options : SetTrustOptions) : Option GoError × List TransportCall :=
  (some ⟨"not implemented"⟩, [])

/-- `(*ContainerEngine).AutoUpdate` from
`pkg/domain/infra/tunnel/auto-update.go`: returns a nil report list and the
single-element error list `["not implemented"]`, issuing no transport call.
(A nil Go slice is `none`; a non-nil slice is `some` of its elements.) -/
def tunnelAutoUpdate (_ic : TunnelContainerEngine)
    (_options : AutoUpdateOptions) :
    (Option (List AutoUpdateReport) × List GoError) × List TransportCall :=
  ((none, [⟨"not implemented"⟩]), [])

/-- C5: the pipe-platform resolver returns `npipe://` plus the slash-normalized
pipe path when the pipe artifact is set and the error "pipe of machine is not
set" when it is nil; the socket-platform resolver returns `unix://` plus the
socket path when the socket artifact is set and the error "socket of machine is
not set" when it is nil; in each nil case the outcome is the same whatever the
other family's artifact is (it is never substituted). -/
theorem extractConnectionString_platform_family
    (socket pipe : Option VMFile) :
    (∀ p, pipe = some p →
      extractConnectionStringWindows socket pipe =
        ("npipe://" ++ toSlash p.Path, none)) ∧
    (pipe = none →
      extractConnectionStringWindows socket pipe =
        ("", some ⟨"pipe of machine is not set"⟩)) ∧
    (∀ s, socket = some s →
      extractConnectionStringUnix socket pipe =
        ("unix://" ++ s.Path, none)) ∧
    (socket = none →
      extractConnectionStringUnix socket pipe =
        ("", some ⟨"socket of machine is not set"⟩)) := by
  refine ⟨?_, ?_, ?_, ?_⟩
  · intro p hp; subst hp; rfl
  · intro hp; subst hp; rfl
  · intro s hs; subst hs; rfl
  · intro hs; subst hs; rfl

/-- Witness for C5 at concrete artifacts: a set pipe resolves to an
`npipe://` address with backslashes normalized, and with the pipe unset the
resolver errors even though the socket artifact is set (no substitution). -/
theorem extractConnectionString_platform_family_witness :
    extractConnectionStringWindows (some ⟨"/run/podman.sock"⟩)
        (some ⟨"\\\\.\\pipe\\podman"⟩) =
      ("npipe:////./pipe/podman", none) ∧
    extractConnectionStringWindows (some ⟨"/run/podman.sock"⟩) none =
      ("", some ⟨"pipe of machine is not set"⟩) ∧
    extractConnectionStringUnix (some ⟨"/run/podman.sock"⟩) none =
      ("unix:///run/podman.sock", none) ∧
    extractConnectionStringUnix none (some ⟨"\\\\.\\pipe\\podman"⟩) =
      ("", some ⟨"socket of machine is not set"⟩) := by
  have h₁ := extractConnectionString_platform_family
    (some ⟨"/run/podman.sock"⟩) (some ⟨"\\\\.\\pipe\\podman"⟩)
  have h₂ := extractConnectionString_platform_family
    (some ⟨"/run/podman.sock"⟩) none
  have h₃ := extractConnectionString_platform_family none
    (some ⟨"\\\\.\\pipe\\podman"⟩)
  refine ⟨?_, h₂.2.1 rfl, ?_, h₃.2.2.2 rfl⟩
  · exact (h₁.1 ⟨"\\\\.\\pipe\\podman"⟩ rfl).trans (by decide)
  · exact (h₂.2.2.1 ⟨"/run/podman.sock"⟩ rfl).trans (by decide)

/-- C4: the remote backend's ShowTrust, SetTrust and AutoUpdate return
immediately with the error "not implemented" (AutoUpdate as a single-element
error list beside a nil report list) and record no transport call. -/
theorem tunnel_unsupported_operations (ir : TunnelImageEngine)
    (ic : TunnelContainerEngine) (args : List String)
    (showOpts : ShowTrustOptions) (setOpts : SetTrustOptions)
    (auOpts : AutoUpdateOptions) :
    tunnelShowTrust ir args showOpts = ((none, some ⟨"not implemented"⟩), []) ∧
    tunnelSetTrust ir args setOpts = (some ⟨"not implemented"⟩, []) ∧
    tunnelAutoUpdate ic auOpts = ((none, [⟨"not implemented"⟩]), []) :=
  ⟨rfl, rfl, rfl⟩

/-- Modelled from the spec: the runtime collaborator's health-check status code
(`define.HealthCheckStatus`, defined outside the provided sources).  The
handler in `src/unnamed/part_000` distinguishes `ContainerNotFound`,
`NotDefined` and `ContainerStopped`; the remaining constructors are the other
states the spec's four-way taxonomy mentions. -/
inductive HealthCheckStatus where
  | defined
  | notDefined
  | internalError
  | unhealthy
  | healthy
  | containerStopped
  | containerNotFound
deriving DecidableEq, Repr

/-- Modelled from the spec: `HealthCheckStatus.String()` (defined outside the
provided sources), the "stringified status" the Report's `Status` field
carries. -/
def statusString : HealthCheckStatus → String
  | .defined => "starting"
  | .notDefined => "starting"
  | .internalError => "starting"
  | .unhealthy => "unhealthy"
  | .healthy => "healthy"
  | .containerStopped => "starting"
  | .containerNotFound => "starting"

/-- Modelled from the spec: the health-check Report
(`define.HealthCheckResults`, defined outside the provided sources), whose
wire-relevant field is named `Status` and carries the stringified status. -/
structure HealthCheckResults where
  Status : String
deriving DecidableEq, Repr

/-- The outcome of the runtime collaborator's health-check primitive
`runtime.HealthCheck(ctx, name)`: a status code together with a possibly-nil
error (Go multiple return). -/
structure HealthCheckOutcome where
  status : HealthCheckStatus
  err : Option GoError
deriving DecidableEq, Repr

/-- What the server-side handler writes to the HTTP response: mirrors the
`utils` helpers it calls — `utils.ContainerNotFound` (a distinguishable
not-found response), `utils.Error` with an explicit status code,
`utils.InternalServerError`, and `utils.WriteResponse` with a Report. -/
inductive HandlerResponse where
  | containerNotFound (name : String) (err : GoError)
  | errorWithCode (code : Nat) (err : GoError)
  | internalServerError (err : GoError)
  | okReport (code : Nat) (report : HealthCheckResults)
deriving DecidableEq, Repr

/-- Go `http.StatusConflict`. -/
def statusConflict : Nat := 409

/-- Go `http.StatusOK`. -/
def statusOK : Nat := 200

/-- `RunHealthCheck` from `src/unnamed/part_000` (the server-side handler
backing the Remote path), as a function of the container name and of the
outcome the runtime collaborator returned for it. -/
def serverRunHealthCheck (name : String) (hc : HealthCheckOutcome) :
    HandlerResponse :=
  match hc.err with
  | some err =>
    if hc.status = .containerNotFound then .containerNotFound name err
    else if hc.status = .notDefined then .errorWithCode statusConflict err
    else if hc.status = .containerStopped then .errorWithCode statusConflict err
    else .internalServerError err
  | none => .okReport statusOK { Status := statusString hc.status }

/-- `(*ContainerEngine).HealthCheckRun` from
`pkg/domain/infra/abi/healthcheck.go` (the Direct backend), as a function of
the outcome the runtime collaborator returned: on a collaborator error it
returns `(nil, err)`; otherwise a Report whose `Status` is the stringified
status. -/
def abiHealthCheckRun (hc : HealthCheckOutcome) :
    Option HealthCheckResults × Option GoError :=
  match hc.err with
  | some err => (none, some err)
  | none => (some { Status := statusString hc.status }, none)

/-- C2: the server-side health-check handler classifies every collaborator
outcome into exactly one of four responses — success gives a 200 Report
carrying the status; an error with status ContainerNotFound gives the
not-found response; an error with status NotDefined or ContainerStopped gives
a 409 conflict response; any other error gives an internal-error response. -/
theorem serverRunHealthCheck_four_outcomes (name : String)
    (status : HealthCheckStatus) (err? : Option GoError) :
    (err? = none →
      serverRunHealthCheck name ⟨status, err?⟩ =
        .okReport statusOK { Status := statusString status }) ∧
    (∀ e, err? = some e → status = .containerNotFound →
      serverRunHealthCheck name ⟨status, err?⟩ = .containerNotFound name e) ∧
    (∀ e, err? = some e →
      (status = .notDefined ∨ status = .containerStopped) →
      serverRunHealthCheck name ⟨status, err?⟩ =
        .errorWithCode statusConflict e) ∧
    (∀ e, err? = some e → status ≠ .containerNotFound →
      status ≠ .notDefined → status ≠ .containerStopped →
      serverRunHealthCheck name ⟨status, err?⟩ = .internalServerError e) := by
  refine ⟨?_, ?_, ?_, ?_⟩
  · intro h; subst h; rfl
  · intro e he hs; subst he; subst hs; rfl
  · intro e he hs; subst he
    rcases hs with hs | hs <;> subst hs <;> rfl
  · intro e he h₁ h₂ h₃; subst he
    cases status <;> simp_all [serverRunHealthCheck]

/-- Witness for C2 at concrete outcomes: one instance of each of the four
classified responses. -/
theorem serverRunHealthCheck_four_outcomes_witness :
    serverRunHealthCheck "web" ⟨.healthy, none⟩ =
      .okReport statusOK { Status := "healthy" } ∧
    serverRunHealthCheck "web" ⟨.containerNotFound, some ⟨"no such container"⟩⟩ =
      .containerNotFound "web" ⟨"no such container"⟩ ∧
    serverRunHealthCheck "web" ⟨.notDefined, some ⟨"not defined"⟩⟩ =
      .errorWithCode statusConflict ⟨"not defined"⟩ ∧
    serverRunHealthCheck "web" ⟨.internalError, some ⟨"boom"⟩⟩ =
      .internalServerError ⟨"boom"⟩ := by
  refine ⟨?_, ?_, ?_, ?_⟩
  · exact (serverRunHealthCheck_four_outcomes "web" .healthy none).1 rfl
  · exact (serverRunHealthCheck_four_outcomes "web" .containerNotFound
      (some ⟨"no such container"⟩)).2.1 ⟨"no such container"⟩ rfl rfl
  · exact (serverRunHealthCheck_four_outcomes "web" .notDefined
      (some ⟨"not defined"⟩)).2.2.1 ⟨"not defined"⟩ rfl (Or.inl rfl)
  · exact (serverRunHealthCheck_four_outcomes "web" .internalError
      (some ⟨"boom"⟩)).2.2.2 ⟨"boom"⟩ rfl (by decide) (by decide) (by decide)

/-- C6 counterexample: at a concrete collaborator error (status
ContainerNotFound, error "no such container"), the Direct backend propagates
exactly the raw collaborator error — the same `GoError` value, with no
taxonomy classification applied — refuting the claim that it never passes the
raw unclassified collaborator error upward. -/
theorem abiHealthCheckRun_propagates_raw_error :
    (abiHealthCheckRun ⟨.containerNotFound, some ⟨"no such container"⟩⟩).2 =
      some ⟨"no such container"⟩ ∧
    (abiHealthCheckRun ⟨.containerNotFound, some ⟨"no such container"⟩⟩).2 =
      (abiHealthCheckRun ⟨.internalError, some ⟨"no such container"⟩⟩).2 := by
  exact ⟨rfl, rfl⟩

/-- C6 amended: when the runtime collaborator returns an error, the Direct
backend returns a nil report and that very error, unchanged and independent of
the status code; the four-way classification of health-check errors is done by
the server-side handler, not by the Direct backend. -/
theorem abiHealthCheckRun_error_verbatim (status : HealthCheckStatus)
    (e : GoError) :
    abiHealthCheckRun ⟨status, some e⟩ = (none, some e) := rfl

/-- C7: on a successful health check the Report's `Status` field equals the
stringified form of the collaborator's status, in the Direct backend and in
the server-side handler alike. -/
theorem healthCheck_report_status_field (name : String)
    (status : HealthCheckStatus) :
    abiHealthCheckRun ⟨status, none⟩ =
      (some { Status := statusString status }, none) ∧
    serverRunHealthCheck name ⟨status, none⟩ =
      .okReport statusOK { Status := statusString status } :=
  ⟨rfl, rfl⟩

/-- Modelled from the spec: `entities.ABIMode` (the Direct mode value; the
`EngineMode` string constants are defined outside the provided sources). -/
def ABIMode : String := "abi"

/-- Modelled from the spec: `entities.TunnelMode` (the Remote mode value). -/
def TunnelMode : String := "tunnel"

/-- The fields of `entities.PodmanConfig` that `NewTestingEngine` reads: the
engine mode and the connection fields handed to negotiation. -/
structure PodmanConfig where
  EngineMode : String
  URI : String
  Identity : String
  TLSCertFile : String
  TLSKeyFile : String
  TLSCAFile : String
  MachineMode : Bool
deriving DecidableEq, Repr

/-- `bindings.Options` as built by `NewTestingEngine` for connection
negotiation. -/
structure ConnOptions where
  URI : String
  Identity : String
  TLSCertFile : String
  TLSKeyFile : String
  TLSCAFile : String
  Machine : Bool
deriving DecidableEq, Repr

/-- The in-process runtime collaborator handle (`*libpod.Runtime`); it exposes
its storage configuration. -/
structure Runtime where
  storageConfig : String
deriving DecidableEq, Repr

/-- The storage collaborator handle (`storage.Store`). -/
structure Store where
  id : Nat
deriving DecidableEq, Repr

/-- A constructed testing-engine facade: either the Direct (ABI) backend
wrapping the runtime and storage handles, or the Remote (tunnel) backend
wrapping the client context returned by negotiation (`tunnel.TestingEngine`;
its `ClientCtx` field holds whatever context negotiation returned, possibly
nil). -/
inductive TestingEngine where
  | abi (libpod : Runtime) (store : Store)
  | tunnel (clientCtx : Option ClientCtx)
deriving DecidableEq, Repr

/-- The collaborator calls facade construction can make, recorded in traces so
that "constructs nothing" is a statement about the trace. -/
inductive InfraEvent where
  | getRuntimeCall
  | getStoreCall (storageConfig : String)
  | newConnectionCall (options : ConnOptions)
deriving DecidableEq, Repr

/-- The outcomes of the collaborators facade construction consults:
`infra.GetRuntime`, `storage.GetStore`, and
`bindings.NewConnectionWithOptions` (the latter in Go style — a context and a
possibly-nil error, the context being whatever value negotiation returned). -/
structure InfraWorld where
  getRuntime : Except GoError Runtime
  getStore : String → Except GoError Store
  newConnection : ConnOptions → Option ClientCtx × Option GoError

/-- `NewLibpodTestingRuntime` from `internal/domain/infra/runtime_proxy.go`:
acquires the runtime, then the storage store scoped to the runtime's storage
configuration; either failure returns `(nil, err)`; success wraps both in the
ABI engine. -/
def NewLibpodTestingRuntime (w : InfraWorld) :
    (Option TestingEngine × Option GoError) × List InfraEvent :=
  match w.getRuntime with
  | .error e => ((none, some e), [.getRuntimeCall])
  | .ok r =>
    match w.getStore r.storageConfig with
    | .error e => ((none, some e), [.getRuntimeCall, .getStoreCall r.storageConfig])
    | .ok store =>
      ((some (.abi r store), none), [.getRuntimeCall, .getStoreCall r.storageConfig])

/-- `NewTestingEngine` from `internal/domain/infra/runtime_abi.go`: ABI mode
delegates to `NewLibpodTestingRuntime`; Tunnel mode negotiates a connection
and returns `&tunnel.TestingEngine{ClientCtx: ctx}` together with
negotiation's error (the Go code returns this non-nil pointer whether or not
`err` is nil); any other mode returns `(nil, fmt.Errorf(...))` without
consulting any collaborator. -/
def NewTestingEngine (w : InfraWorld) (facts : PodmanConfig) :
    (Option TestingEngine × Option GoError) × List InfraEvent :=
  if facts.EngineMode = ABIMode then
    NewLibpodTestingRuntime w
  else if facts.EngineMode = TunnelMode then
    let options : ConnOptions :=
      { URI := facts.URI, Identity := facts.Identity,
        TLSCertFile := facts.TLSCertFile, TLSKeyFile := facts.TLSKeyFile,
        TLSCAFile := facts.TLSCAFile, Machine := facts.MachineMode }
    let res := w.newConnection options
    ((some (.tunnel res.1), res.2), [.newConnectionCall options])
  else
    ((none, some ⟨"runtime mode \x27" ++ facts.EngineMode ++ "\x27 is not supported"⟩), [])

/-- A concrete configuration in Tunnel mode, used for counterexamples. -/
def tunnelFacts : PodmanConfig :=
  { EngineMode := "tunnel", URI := "ssh://core@localhost", Identity := "",
    TLSCertFile := "", TLSKeyFile := "", TLSCAFile := "", MachineMode := false }

/-- A concrete world in which connection negotiation fails, used for
counterexamples. -/
def failingConnWorld : InfraWorld :=
  { getRuntime := .error ⟨"unused"⟩,
    getStore := fun _ => .error ⟨"unused"⟩,
    newConnection := fun _ => (none, some ⟨"connection refused"⟩) }

/-- C1 counterexample: in Tunnel mode with failing connection negotiation, the
constructor returns the negotiation error together with a NON-nil engine (the
tunnel facade wrapping the failed context) — refuting the claim that on
failure the engine result is always nil. -/
theorem NewTestingEngine_partial_facade_on_tunnel_failure :
    (NewTestingEngine failingConnWorld tunnelFacts).1 =
      (some (.tunnel none), some ⟨"connection refused"⟩) ∧
    (NewTestingEngine failingConnWorld tunnelFacts).1.1 ≠ none := by
  exact ⟨rfl, by decide⟩

/-- C1 amended: on the Direct path any acquisition failure makes the
constructor return a nil engine with the error (no partial facade); on the
Remote path a negotiation failure makes the constructor return the negotiation
error, but the engine result is the tunnel facade wrapping the returned
context, not nil. -/
theorem NewTestingEngine_failure_behaviour (w : InfraWorld)
    (facts : PodmanConfig) :
    (∀ e, facts.EngineMode = ABIMode → w.getRuntime = .error e →
      (NewTestingEngine w facts).1 = (none, some e)) ∧
    (∀ r e, facts.EngineMode = ABIMode → w.getRuntime = .ok r →
      w.getStore r.storageConfig = .error e →
      (NewTestingEngine w facts).1 = (none, some e)) ∧
    (∀ ctx e, facts.EngineMode = TunnelMode →
      w.newConnection
        { URI := facts.URI, Identity := facts.Identity,
          TLSCertFile := facts.TLSCertFile, TLSKeyFile := facts.TLSKeyFile,
          TLSCAFile := facts.TLSCAFile, Machine := facts.MachineMode } =
        (ctx, some e) →
      (NewTestingEngine w facts).1 = (some (.tunnel ctx), some e)) := by
  refine ⟨?_, ?_, ?_⟩
  · intro e hm hr
    simp [NewTestingEngine, hm, NewLibpodTestingRuntime, hr]
  · intro r e hm hr hs
    simp [NewTestingEngine, hm, NewLibpodTestingRuntime, hr, hs]
  · intro ctx e hm hc
    have hne : facts.EngineMode ≠ ABIMode := by
      rw [hm]; decide
    unfold NewTestingEngine
    rw [if_neg hne, if_pos hm]
    simp only []
    rw [hc]

/-- Witness for the amended C1 at concrete worlds: a Direct-path runtime
failure yields a nil engine with the error; a Remote-path negotiation failure
yields the tunnel facade beside the error. -/
theorem NewTestingEngine_failure_behaviour_witness :
    (NewTestingEngine
        { failingConnWorld with getRuntime := .error ⟨"no runtime"⟩ }
        { tunnelFacts with EngineMode := "abi" }).1 =
      (none, some ⟨"no runtime"⟩) ∧
    (NewTestingEngine failingConnWorld tunnelFacts).1 =
      (some (.tunnel none), some ⟨"connection refused"⟩) := by
  constructor
  · exact (NewTestingEngine_failure_behaviour
      { failingConnWorld with getRuntime := .error ⟨"no runtime"⟩ }
      { tunnelFacts with EngineMode := "abi" }).1 ⟨"no runtime"⟩ rfl rfl
  · exact (NewTestingEngine_failure_behaviour failingConnWorld
      tunnelFacts).2.2 none ⟨"connection refused"⟩ rfl rfl

/-- C3: for every mode value outside {ABI, Tunnel}, facade construction
returns a nil engine together with the "unsupported mode" error naming the
offending value, and consults no collaborator (the construction trace is
empty: no backend of either kind is constructed). -/
theorem NewTestingEngine_unsupported_mode (w : InfraWorld)
    (facts : PodmanConfig) (hA : facts.EngineMode ≠ ABIMode)
    (hT : facts.EngineMode ≠ TunnelMode) :
    NewTestingEngine w facts =
      ((none,
        some ⟨"runtime mode \x27" ++ facts.EngineMode ++ "\x27 is not supported"⟩),
       []) := by
  simp [NewTestingEngine, hA, hT]

/-- Witness for C3 at a concrete unsupported mode value. -/
theorem NewTestingEngine_unsupported_mode_witness :
    NewTestingEngine failingConnWorld { tunnelFacts with EngineMode := "bogus" } =
      ((none, some ⟨"runtime mode \x27bogus\x27 is not supported"⟩), []) := by
  exact NewTestingEngine_unsupported_mode failingConnWorld
    { tunnelFacts with EngineMode := "bogus" } (by decide) (by decide)

/-- Modelled from the spec: the remote artifact-pull options
(`PullOptions` of the artifacts bindings, a generated type defined outside the
provided sources): every field is optional (a nil pointer when absent). -/
structure PullOptions where
  authfile : Option String := none
  username : Option String := none
  password : Option String := none
  quiet : Option Bool := none
deriving DecidableEq, Repr

/-- Modelled from the spec: the generated getter `GetAuthfile` — the field's
value, or the zero value when the field is nil. -/
def PullOptions.getAuthfile (o : PullOptions) : String := o.authfile.getD ""

/-- Modelled from the spec: the generated getter `GetUsername`. -/
def PullOptions.getUsername (o : PullOptions) : String := o.username.getD ""

/-- Modelled from the spec: the generated getter `GetPassword`. -/
def PullOptions.getPassword (o : PullOptions) : String := o.password.getD ""

/-- The bindings connection obtained from the call context
(`bindings.GetClient`). -/
structure Connection where
  id : Nat
deriving DecidableEq, Repr

/-- The system context handed to the auth-header builder: `Pull` fills only
`AuthFilePath`. -/
structure SystemContext where
  authFilePath : String
deriving DecidableEq, Repr

/-- The encoded registry-auth header returned by
`auth.MakeXRegistryAuthHeader`. -/
structure AuthHeader where
  encoded : String
deriving DecidableEq, Repr

/-- A transport response as received by the bindings (`DoRequest`'s result,
whose body must be closed). -/
structure RemoteResponse where
  id : Nat
deriving DecidableEq, Repr

/-- Modelled from the spec: the artifact-pull Report
(`entities.ArtifactPullReport`, defined outside the provided sources). -/
structure ArtifactPullReport where
  ArtifactDigest : String
deriving DecidableEq, Repr

/-- Transport query parameters (`url.Values`, one value per key here). -/
def Params := List (String × String)
deriving DecidableEq, Repr

/-- `url.Values.Set`: bind the key to exactly this value. -/
def Params.set (ps : Params) (k v : String) : Params :=
  (k, v) :: List.filter (fun p => p.1 ≠ k) ps

/-- The collaborator calls the remote artifact-pull makes, in order, recorded
as the call's trace. -/
inductive PullEvent where
  | getClientCall
  | toParamsCall
  | makeHeaderCall (sys : SystemContext) (username password : String)
  | doRequestCall (method path : String) (params : Params) (header : AuthHeader)
  | closeBodyCall
  | processCall
deriving DecidableEq, Repr

/-- The outcomes of the collaborators the remote artifact-pull consults:
`bindings.GetClient`, the generated `options.ToParams`,
`auth.MakeXRegistryAuthHeader`, the connection's `DoRequest` primitive, and
`response.Process` (decoding the body into the typed report). -/
structure PullWorld where
  getClient : Except GoError Connection
  toParams : PullOptions → Except GoError Params
  makeHeader : SystemContext → String → String → Except GoError AuthHeader
  doRequest : Params → AuthHeader → Except GoError RemoteResponse
  processBody : RemoteResponse → Except GoError ArtifactPullReport

/-- `Pull` from `src/unnamed/part_002` (the remote artifact-pull binding): nil
options are replaced by a fresh zero value; the client, the encoded
parameters (with `name` set), and the registry-auth header (from a system
context carrying the authfile plus the optional username and password) are
obtained in that order, each failure returning immediately; then the POST to
`/artifacts/pull` is issued; on a transport error the error is returned; on a
response the body is processed into the report and the body is closed (Go
`defer`) before returning, on the success and failure path alike. -/
def artifactPull (w : PullWorld) (name : String)
    (options? : Option PullOptions) :
    (Option ArtifactPullReport × Option GoError) × List PullEvent :=
  let options := options?.getD {}
  match w.getClient with
  | .error e => ((none, some e), [.getClientCall])
  | .ok _conn =>
    match w.toParams options with
    | .error e => ((none, some e), [.getClientCall, .toParamsCall])
    | .ok params₀ =>
      let params := params₀.set "name" name
      let sys : SystemContext := { authFilePath := options.getAuthfile }
      match w.makeHeader sys options.getUsername options.getPassword with
      | .error e =>
        ((none, some e),
         [.getClientCall, .toParamsCall,
          .makeHeaderCall sys options.getUsername options.getPassword])
      | .ok header =>
        match w.doRequest params header with
        | .error e =>
          ((none, some e),
           [.getClientCall, .toParamsCall,
            .makeHeaderCall sys options.getUsername options.getPassword,
            .doRequestCall "POST" "/artifacts/pull" params header])
        | .ok response =>
          match w.processBody response with
          | .error e =>
            ((none, some e),
             [.getClientCall, .toParamsCall,
              .makeHeaderCall sys options.getUsername options.getPassword,
              .doRequestCall "POST" "/artifacts/pull" params header,
              .processCall, .closeBodyCall])
          | .ok report =>
            ((some report, none),
             [.getClientCall, .toParamsCall,
              .makeHeaderCall sys options.getUsername options.getPassword,
              .doRequestCall "POST" "/artifacts/pull" params header,
              .processCall, .closeBodyCall])

/-- C8: whenever the remote artifact-pull receives a transport response (the
request collaborator returns a response rather than an error), the trace of
the call contains the body-close event, and it is the last thing the call does
before returning — on the successful-decode path and the failed-decode path
alike. -/
theorem artifactPull_closes_body (w : PullWorld) (name : String)
    (options? : Option PullOptions) (conn : Connection) (ps : Params)
    (hdr : AuthHeader) (resp : RemoteResponse)
    (hg : w.getClient = .ok conn)
    (ht : w.toParams (options?.getD {}) = .ok ps)
    (hh : w.makeHeader { authFilePath := (options?.getD {}).getAuthfile }
        (options?.getD {}).getUsername (options?.getD {}).getPassword =
      .ok hdr)
    (hd : w.doRequest (ps.set "name" name) hdr = .ok resp) :
    PullEvent.closeBodyCall ∈ (artifactPull w name options?).2 ∧
    (artifactPull w name options?).2.getLast? = some .closeBodyCall := by
  cases hp : w.processBody resp <;>
    simp [artifactPull, hg, ht, hh, hd, hp]

/-- Witness for C8 at a concrete world whose decode step fails: the trace
still ends by closing the body. -/
theorem artifactPull_closes_body_witness :
    PullEvent.closeBodyCall ∈
      (artifactPull
        { getClient := .ok ⟨0⟩, toParams := fun _ => .ok [],
          makeHeader := fun _ _ _ => .ok ⟨"x"⟩,
          doRequest := fun _ _ => .ok ⟨7⟩,
          processBody := fun _ => .error ⟨"decode failed"⟩ }
        "quay.io/img" none).2 := by
  exact (artifactPull_closes_body
    { getClient := .ok ⟨0⟩, toParams := fun _ => .ok [],
      makeHeader := fun _ _ _ => .ok ⟨"x"⟩,
      doRequest := fun _ _ => .ok ⟨7⟩,
      processBody := fun _ => .error ⟨"decode failed"⟩ }
    "quay.io/img" none ⟨0⟩ [] ⟨"x"⟩ ⟨7⟩ rfl rfl rfl rfl).1

/-- C9: the registry-auth header is built (from the system context carrying
the authfile plus the optional username and password) before any transport
request is issued — every trace containing a request event starts with
client acquisition, parameter encoding and header construction, in that
order, before the request; and when header construction fails, the call
returns that error and the trace contains no request event at all. -/
theorem artifactPull_header_before_request (w : PullWorld) (name : String)
    (options? : Option PullOptions) :
    (∀ m pth ps hdr,
      PullEvent.doRequestCall m pth ps hdr ∈ (artifactPull w name options?).2 →
      ∃ rest, (artifactPull w name options?).2 =
        [.getClientCall, .toParamsCall,
         .makeHeaderCall { authFilePath := (options?.getD {}).getAuthfile }
           (options?.getD {}).getUsername (options?.getD {}).getPassword,
         .doRequestCall m pth ps hdr] ++ rest) ∧
    (∀ conn ps e, w.getClient = .ok conn →
      w.toParams (options?.getD {}) = .ok ps →
      w.makeHeader { authFilePath := (options?.getD {}).getAuthfile }
          (options?.getD {}).getUsername (options?.getD {}).getPassword =
        .error e →
      artifactPull w name options? =
        ((none, some e),
         [.getClientCall, .toParamsCall,
          .makeHeaderCall { authFilePath := (options?.getD {}).getAuthfile }
            (options?.getD {}).getUsername (options?.getD {}).getPassword])) := by
  constructor
  · intro m pth ps hdr hmem
    cases hg : w.getClient with
    | error e => simp [artifactPull, hg] at hmem
    | ok conn =>
      cases ht : w.toParams (options?.getD {}) with
      | error e => simp [artifactPull, hg, ht] at hmem
      | ok params₀ =>
        cases hh : w.makeHeader { authFilePath := (options?.getD {}).getAuthfile }
            (options?.getD {}).getUsername (options?.getD {}).getPassword with
        | error e => simp [artifactPull, hg, ht, hh] at hmem
        | ok header =>
          cases hd : w.doRequest (params₀.set "name" name) header with
          | error e =>
            simp only [artifactPull, hg, ht, hh, hd] at hmem ⊢
            simp at hmem
            obtain ⟨hm, hp, hps, hhdr⟩ := hmem
            subst hm; subst hp; subst hps; subst hhdr
            exact ⟨[], rfl⟩
          | ok response =>
            cases hp : w.processBody response with
            | error e =>
              simp only [artifactPull, hg, ht, hh, hd, hp] at hmem ⊢
              simp at hmem
              obtain ⟨hm, hp', hps, hhdr⟩ := hmem
              subst hm; subst hp'; subst hps; subst hhdr
              exact ⟨[.processCall, .closeBodyCall], rfl⟩
            | ok report =>
              simp only [artifactPull, hg, ht, hh, hd, hp] at hmem ⊢
              simp at hmem
              obtain ⟨hm, hp', hps, hhdr⟩ := hmem
              subst hm; subst hp'; subst hps; subst hhdr
              exact ⟨[.processCall, .closeBodyCall], rfl⟩
  · intro conn ps e hg ht hh
    simp [artifactPull, hg, ht, hh]

/-- Witness for C9 at concrete worlds: with everything succeeding, the trace
indeed opens with client, parameters and header before the request; and with a
failing header builder, the error comes back and the trace stops at header
construction. -/
theorem artifactPull_header_before_request_witness :
    (artifactPull
      { getClient := .ok ⟨0⟩, toParams := fun _ => .ok [],
        makeHeader := fun _ _ _ => .ok ⟨"x"⟩,
        doRequest := fun _ _ => .ok ⟨7⟩,
        processBody := fun _ => .ok ⟨"sha256:abc"⟩ }
      "quay.io/img" none).2 =
      [.getClientCall, .toParamsCall, .makeHeaderCall ⟨""⟩ "" "",
       .doRequestCall "POST" "/artifacts/pull" [("name", "quay.io/img")] ⟨"x"⟩] ++
      [.processCall, .closeBodyCall] ∧
    artifactPull
      { getClient := .ok ⟨0⟩, toParams := fun _ => .ok [],
        makeHeader := fun _ _ _ => .error ⟨"bad credentials"⟩,
        doRequest := fun _ _ => .ok ⟨7⟩,
        processBody := fun _ => .ok ⟨"sha256:abc"⟩ }
      "quay.io/img" none =
      ((none, some ⟨"bad credentials"⟩),
       [.getClientCall, .toParamsCall, .makeHeaderCall ⟨""⟩ "" ""]) := by
  constructor
  · obtain ⟨rest, hrest⟩ :=
      (artifactPull_header_before_request
        { getClient := .ok ⟨0⟩, toParams := fun _ => .ok [],
          makeHeader := fun _ _ _ => .ok ⟨"x"⟩,
          doRequest := fun _ _ => .ok ⟨7⟩,
          processBody := fun _ => .ok ⟨"sha256:abc"⟩ }
        "quay.io/img" none).1 "POST" "/artifacts/pull"
        [("name", "quay.io/img")] ⟨"x"⟩ (by decide)
    exact hrest.trans (by
      have : rest = [.processCall, .closeBodyCall] := by
        have h₂ := hrest
        simp [artifactPull, Params.set] at h₂
        exact h₂.symm
      rw [this]
      rfl)
  · exact (artifactPull_header_before_request
      { getClient := .ok ⟨0⟩, toParams := fun _ => .ok [],
        makeHeader := fun _ _ _ => .error ⟨"bad credentials"⟩,
        doRequest := fun _ _ => .ok ⟨7⟩,
        processBody := fun _ => .ok ⟨"sha256:abc"⟩ }
      "quay.io/img" none).2 ⟨0⟩ [] ⟨"bad credentials"⟩ rfl rfl rfl

/-- C10: calling the remote artifact-pull with nil options is exactly calling
it with a freshly constructed empty options value — result and trace agree for
every world and name. -/
theorem artifactPull_nil_options_default (w : PullWorld) (name : String) :
    artifactPull w name none = artifactPull w name (some {}) := rfl
